import Mathlib

/-!
Shallow embedding of the hotel-booking backend (`src/app.py`): three Flask
handlers (`add_booking`, `get_room_availability`, `cancel_booking`) that run
parameterized SQL against a MySQL database.

The database is modelled as explicit relational state (`DB`): lists of rows
for `Booking`, `Room`, `RoomType` plus the auto-increment counter backing
`cursor.lastrowid` and the server clock backing SQL `NOW()`.

The database driver (`mysql.connector`) is an external collaborator that may
raise `mysql.connector.Error` on connection or on any statement.  Each handler
therefore takes a fault parameter naming which step (if any) raises, carrying
the error text (`str(err)`).  A transaction is modelled by threading a working
state through the statements: `conn.commit()` publishes the working state,
and every `except` branch returns the original state (the `conn.rollback()`).
-/

/-- A row of the `Booking` table.  Columns as in the `INSERT INTO Booking`
statement of `add_booking`; `BookingID` is the auto-generated surrogate key
read back through `cursor.lastrowid`. -/
structure BookingRow where
  BookingID : Nat
  CustomerID : Nat
  RoomNumber : Nat
  CheckInDate : String
  CheckOutDate : String
  TotalCost : Int
  BookingDate : Nat
deriving DecidableEq, Repr

/-- A row of the `Room` table: `RoomNumber` key, reference to `RoomType`,
and the `Status` column holding the strings written by the handlers
(normally `"Vacant"` or `"Occupied"`). -/
structure RoomRow where
  RoomNumber : Nat
  RoomTypeID : Nat
  Status : String
deriving DecidableEq, Repr

/-- A row of the `RoomType` table: key, display name and nightly rate. -/
structure RoomTypeRow where
  RoomTypeID : Nat
  TypeName : String
  Rate : Int
deriving DecidableEq, Repr

/-- A row of the `Customer` table.  The schema references it through
`Booking.CustomerID`, but no SQL statement in `src/app.py` ever reads or
writes it; it is carried in the state so frame conditions can mention it. -/
structure CustomerRow where
  CustomerID : Nat
deriving DecidableEq, Repr

/-- The relational database state seen by the handlers.  `nextBookingID` is
the `AUTO_INCREMENT` counter of `Booking` (the value `cursor.lastrowid`
reports for the next insert); `now` is the server clock read by `NOW()`. -/
structure DB where
  bookings : List BookingRow
  rooms : List RoomRow
  roomTypes : List RoomTypeRow
  customers : List CustomerRow
  nextBookingID : Nat
  now : Nat
deriving DecidableEq, Repr

/-- The JSON body of a `POST /api/bookings` request, as read by
`data.get(...)` in `add_booking`.  `guestName` is read at line 41 of
`src/app.py` but used nowhere else. -/
structure BookingRequest where
  guestName : String
  roomNumber : Nat
  checkInDate : String
  checkOutDate : String
  totalCost : Int
  customerId : Nat
deriving DecidableEq, Repr

/-- The status strings written by the handlers. -/
def occupiedStr : String := "Occupied"

def vacantStr : String := "Vacant"

/-- Statement `UPDATE Room SET Status = s WHERE RoomNumber = n`: every `Room` row whose
`RoomNumber` equals `n` gets `Status := s`; all other rows are untouched.
Matching zero rows is not an error. -/
def setRoomStatus (db : DB) (n : Nat) (s : String) : DB :=
  { db with rooms := db.rooms.map (fun r =>
      if r.RoomNumber == n then { r with Status := s } else r) }

/-- Statement `INSERT INTO Booking (CustomerID, RoomNumber, CheckInDate, CheckOutDate,
TotalCost, BookingDate) VALUES (..., NOW())`: appends a row keyed by the
auto-increment counter, with `BookingDate` equal to the server clock, and
bumps the counter. -/
def insertBooking (db : DB) (req : BookingRequest) : DB :=
  { db with
    bookings := db.bookings ++
      [{ BookingID := db.nextBookingID
         CustomerID := req.customerId
         RoomNumber := req.roomNumber
         CheckInDate := req.checkInDate
         CheckOutDate := req.checkOutDate
         TotalCost := req.totalCost
         BookingDate := db.now }]
    nextBookingID := db.nextBookingID + 1 }

/-- Statement `DELETE FROM Booking WHERE BookingID = %s`: removes every `Booking` row
with that key. -/
def deleteBooking (db : DB) (bookingId : Nat) : DB :=
  { db with bookings := db.bookings.filter (fun b => b.BookingID != bookingId) }

/-- Query `SELECT RoomNumber FROM Booking WHERE BookingID = %s` followed by
`fetchone()`: the `RoomNumber` of the first matching row, if any. -/
def selectRoomOfBooking (db : DB) (bookingId : Nat) : Option Nat :=
  (db.bookings.find? (fun b => b.BookingID == bookingId)).map (fun b => b.RoomNumber)

/-- Which step of `add_booking`, if any, raises `mysql.connector.Error`
(with `str(err)` as details).  `connFail` is `get_db_connection()` returning
`None`. -/
inductive AddFault where
  | noFault
  | connFail
  | insertFail (details : String)
  | updateFail (details : String)
  | commitFail (details : String)
deriving DecidableEq, Repr

/-- The responses `add_booking` can produce, one constructor per
`jsonify(...)` call in the handler. -/
inductive BookingResp where
  | connFail
  | created (bookingId : Nat)
  | writeFail (details : String)
deriving DecidableEq, Repr

/-- HTTP status code paired with each `add_booking` response. -/
def BookingResp.statusCode : BookingResp → Nat
  | .connFail => 500
  | .created _ => 201
  | .writeFail _ => 400

/-- The `"details"` field of the `add_booking` error body (`str(err)` passed
through), when present. -/
def BookingResp.details? : BookingResp → Option String
  | .writeFail d => some d
  | _ => none

/-- The `INSERT` statement of `add_booking` under the fault model: raises on
`insertFail`, otherwise performs the insert and yields `cursor.lastrowid`. -/
def insertBookingStmt (fault : AddFault) (db : DB) (req : BookingRequest) :
    Except String (DB × Nat) :=
  match fault with
  | .insertFail d => .error d
  | _ => .ok (insertBooking db req, db.nextBookingID)

/-- The `UPDATE Room SET Status = 'Occupied'` statement of `add_booking`
under the fault model. -/
def updateOccupiedStmt (fault : AddFault) (db : DB) (n : Nat) :
    Except String DB :=
  match fault with
  | .updateFail d => .error d
  | _ => .ok (setRoomStatus db n occupiedStr)

/-- Call `conn.commit()` in `add_booking` under the fault model. -/
def commitStmtAdd (fault : AddFault) : Except String Unit :=
  match fault with
  | .commitFail d => .error d
  | _ => .ok ()

/-- Handler `add_booking` (`POST /api/bookings`, lines 34-77 of `src/app.py`).
Returns the database state after the request together with the response.
The `except mysql.connector.Error` branches roll the transaction back, so
they return the original `db`. -/
def add_booking (req : BookingRequest) (fault : AddFault) (db : DB) :
    DB × BookingResp :=
  if fault = AddFault.connFail then
    (db, BookingResp.connFail)
  else
    match insertBookingStmt fault db req with
    | .error err => (db, BookingResp.writeFail err)
    | .ok (db1, booking_id) =>
      match updateOccupiedStmt fault db1 req.roomNumber with
      | .error err => (db, BookingResp.writeFail err)
      | .ok db2 =>
        match commitStmtAdd fault with
        | .error err => (db, BookingResp.writeFail err)
        | .ok _ => (db2, BookingResp.created booking_id)

/-- Which step of `get_room_availability`, if any, fails. -/
inductive RoomsFault where
  | noFault
  | connFail
  | queryFail (details : String)
deriving DecidableEq, Repr

/-- One element of the `fetchall()` result of the availability query:
`SELECT r.RoomNumber, rt.TypeName AS RoomType, rt.Rate, r.Status`. -/
structure RoomView where
  RoomNumber : Nat
  RoomType : String
  Rate : Int
  Status : String
deriving DecidableEq, Repr

/-- The join row built from a `Room` row and a matching `RoomType` row. -/
def viewEntry (r : RoomRow) (rt : RoomTypeRow) : RoomView :=
  { RoomNumber := r.RoomNumber
    RoomType := rt.TypeName
    Rate := rt.Rate
    Status := r.Status }

/-- Join `FROM Room r JOIN RoomType rt ON r.RoomTypeID = rt.RoomTypeID`: one row
per pair of a `Room` row and a `RoomType` row with equal `RoomTypeID`. -/
def roomJoin (db : DB) : List RoomView :=
  db.rooms.flatMap (fun r =>
    (db.roomTypes.filter (fun rt => rt.RoomTypeID == r.RoomTypeID)).map
      (viewEntry r))

/-- The full availability query, `ORDER BY r.RoomNumber` applied to the
join. -/
def availabilityView (db : DB) : List RoomView :=
  (roomJoin db).mergeSort (fun a b => a.RoomNumber ≤ b.RoomNumber)

/-- The responses `get_room_availability` can produce. -/
inductive RoomsResp where
  | connFail
  | queryFail (details : String)
  | ok (rooms : List RoomView)
deriving DecidableEq, Repr

/-- HTTP status code paired with each `get_room_availability` response
(`jsonify(rooms)` without an explicit code is 200). -/
def RoomsResp.statusCode : RoomsResp → Nat
  | .connFail => 500
  | .queryFail _ => 500
  | .ok _ => 200

/-- Handler `get_room_availability` (`GET /api/rooms`, lines 80-107 of
`src/app.py`).  Only executes a `SELECT`, so the database state is returned
unchanged on every path. -/
def get_room_availability (fault : RoomsFault) (db : DB) : DB × RoomsResp :=
  if fault = RoomsFault.connFail then
    (db, RoomsResp.connFail)
  else
    match fault with
    | .queryFail d => (db, RoomsResp.queryFail d)
    | _ => (db, RoomsResp.ok (availabilityView db))

/-- Which step of `cancel_booking`, if any, raises. -/
inductive CancelFault where
  | noFault
  | connFail
  | selectFail (details : String)
  | deleteFail (details : String)
  | updateFail (details : String)
  | commitFail (details : String)
deriving DecidableEq, Repr

/-- The responses `cancel_booking` can produce, one constructor per
`jsonify(...)` call in the handler. -/
inductive CancelResp where
  | connFail
  | notFound
  | cancelled (bookingId : Nat) (roomNumber : Nat)
  | writeFail (details : String)
deriving DecidableEq, Repr

/-- HTTP status code paired with each `cancel_booking` response. -/
def CancelResp.statusCode : CancelResp → Nat
  | .connFail => 500
  | .notFound => 404
  | .cancelled _ _ => 200
  | .writeFail _ => 400

/-- The `"message"` field of the `cancel_booking` success body: the f-string
of line 136 of `src/app.py`. -/
def CancelResp.message? : CancelResp → Option String
  | .cancelled bid rn =>
      some ("Booking " ++ toString bid ++ " cancelled successfully. Room " ++
        toString rn ++ " is now Vacant.")
  | _ => none

/-- The `"details"` field of the `cancel_booking` error body, when
present. -/
def CancelResp.details? : CancelResp → Option String
  | .writeFail d => some d
  | _ => none

/-- The `SELECT RoomNumber ...` statement of `cancel_booking` under the
fault model. -/
def selectRoomStmt (fault : CancelFault) (db : DB) (bookingId : Nat) :
    Except String (Option Nat) :=
  match fault with
  | .selectFail d => .error d
  | _ => .ok (selectRoomOfBooking db bookingId)

/-- The `DELETE FROM Booking` statement of `cancel_booking` under the fault
model. -/
def deleteBookingStmt (fault : CancelFault) (db : DB) (bookingId : Nat) :
    Except String DB :=
  match fault with
  | .deleteFail d => .error d
  | _ => .ok (deleteBooking db bookingId)

/-- The `UPDATE Room SET Status = 'Vacant'` statement of `cancel_booking`
under the fault model. -/
def updateVacantStmt (fault : CancelFault) (db : DB) (n : Nat) :
    Except String DB :=
  match fault with
  | .updateFail d => .error d
  | _ => .ok (setRoomStatus db n vacantStr)

/-- Call `conn.commit()` in `cancel_booking` under the fault model. -/
def commitStmtCancel (fault : CancelFault) : Except String Unit :=
  match fault with
  | .commitFail d => .error d
  | _ => .ok ()

/-- Handler `cancel_booking` (`DELETE /api/bookings/<int:booking_id>`, lines 109-143
of `src/app.py`).  `fetchone()` returning nothing short-circuits to the 404
before any write; every `except` branch rolls back to the original `db`. -/
def cancel_booking (booking_id : Nat) (fault : CancelFault) (db : DB) :
    DB × CancelResp :=
  if fault = CancelFault.connFail then
    (db, CancelResp.connFail)
  else
    match selectRoomStmt fault db booking_id with
    | .error err => (db, CancelResp.writeFail err)
    | .ok none => (db, CancelResp.notFound)
    | .ok (some room_number) =>
      match deleteBookingStmt fault db booking_id with
      | .error err => (db, CancelResp.writeFail err)
      | .ok db1 =>
        match updateVacantStmt fault db1 room_number with
        | .error err => (db, CancelResp.writeFail err)
        | .ok db2 =>
          match commitStmtCancel fault with
          | .error err => (db, CancelResp.writeFail err)
          | .ok _ => (db2, CancelResp.cancelled booking_id room_number)

/-- A sample database: booking 1 occupies room 101; room 102 is Vacant. -/
def dbA : DB :=
  { bookings := [{ BookingID := 1, CustomerID := 7, RoomNumber := 101,
                   CheckInDate := "2024-06-01", CheckOutDate := "2024-06-03",
                   TotalCost := 250, BookingDate := 5 }]
    rooms := [{ RoomNumber := 101, RoomTypeID := 1, Status := "Occupied" },
              { RoomNumber := 102, RoomTypeID := 2, Status := "Vacant" }]
    roomTypes := [{ RoomTypeID := 1, TypeName := "Single", Rate := 100 },
                  { RoomTypeID := 2, TypeName := "Double", Rate := 250 }]
    customers := [{ CustomerID := 7 }]
    nextBookingID := 2
    now := 9 }

/-- A sample request asking for the Vacant room 102. -/
def reqA : BookingRequest :=
  { guestName := "A. Lee", roomNumber := 102, checkInDate := "2024-07-01",
    checkOutDate := "2024-07-02", totalCost := 250, customerId := 7 }

/-- A sample request asking for the already-Occupied room 101. -/
def reqB : BookingRequest :=
  { reqA with guestName := "B. Chan", roomNumber := 101 }

/-- A sample database holding two live bookings for the same room 101. -/
def dbB : DB :=
  { dbA with
    bookings := dbA.bookings ++
      [{ BookingID := 2, CustomerID := 8, RoomNumber := 101,
         CheckInDate := "2024-06-02", CheckOutDate := "2024-06-04",
         TotalCost := 300, BookingDate := 6 }]
    nextBookingID := 3 }

theorem add_booking_noFault_eq (req : BookingRequest) (db : DB) :
    add_booking req AddFault.noFault db =
      (setRoomStatus (insertBooking db req) req.roomNumber occupiedStr,
       BookingResp.created db.nextBookingID) := rfl

theorem cancel_booking_noFault_eq (db : DB) (bid : Nat) (b : BookingRow)
    (hfind : db.bookings.find? (fun x => x.BookingID == bid) = some b) :
    cancel_booking bid CancelFault.noFault db =
      (setRoomStatus (deleteBooking db bid) b.RoomNumber vacantStr,
       CancelResp.cancelled bid b.RoomNumber) := by
  simp [cancel_booking, selectRoomStmt, selectRoomOfBooking, hfind,
    deleteBookingStmt, updateVacantStmt, commitStmtCancel]

theorem setRoomStatus_status_of_eq (db : DB) (n : Nat) (s : String) :
    ∀ r ∈ (setRoomStatus db n s).rooms, r.RoomNumber = n → r.Status = s := by
  intro r hr hn
  simp only [setRoomStatus, List.mem_map] at hr
  obtain ⟨r0, hr0, heq⟩ := hr
  by_cases h : r0.RoomNumber = n
  · simp [h] at heq
    exact heq ▸ rfl
  · simp [h] at heq
    exact absurd (heq ▸ hn) h

theorem availabilityView_status_of_eq (db : DB) (n : Nat) (s : String)
    (h : ∀ r ∈ db.rooms, r.RoomNumber = n → r.Status = s) :
    ∀ v ∈ availabilityView db, v.RoomNumber = n → v.Status = s := by
  intro v hv hn
  simp only [availabilityView, List.mem_mergeSort, roomJoin, List.mem_flatMap,
    List.mem_map, List.mem_filter] at hv
  obtain ⟨r, hr, rt, _, heq⟩ := hv
  subst heq
  exact h r hr hn

/-- C1: a database error raised by the Booking insert or by the Room status
update inside `add_booking` rolls the whole transaction back (the state is
exactly the pre-call state, so no orphan Booking row persists) and the error
is reported to the caller as the 400 error response, with no retry. -/
theorem add_booking_write_failure_rolls_back (req : BookingRequest) (db : DB)
    (d : String) (fault : AddFault)
    (h : fault = AddFault.insertFail d ∨ fault = AddFault.updateFail d) :
    add_booking req fault db = (db, BookingResp.writeFail d) ∧
    (add_booking req fault db).1.bookings = db.bookings := by
  rcases h with h | h <;> subst h <;> exact ⟨rfl, rfl⟩

theorem add_booking_write_failure_rolls_back_witness :
    add_booking reqA (AddFault.updateFail "err 1452") dbA =
      (dbA, BookingResp.writeFail "err 1452") ∧
    (add_booking reqA (AddFault.updateFail "err 1452") dbA).1.bookings =
      dbA.bookings :=
  add_booking_write_failure_rolls_back reqA dbA "err 1452"
    (AddFault.updateFail "err 1452") (Or.inr rfl)

/-- C9: `get_room_availability` is read-only: whatever the fault outcome, the
database state after the call is the pre-call state, so every Booking, Room,
RoomType and Customer row is unchanged. -/
theorem get_room_availability_read_only (fault : RoomsFault) (db : DB) :
    (get_room_availability fault db).1 = db ∧
    (get_room_availability fault db).1.bookings = db.bookings ∧
    (get_room_availability fault db).1.rooms = db.rooms ∧
    (get_room_availability fault db).1.roomTypes = db.roomTypes ∧
    (get_room_availability fault db).1.customers = db.customers := by
  cases fault <;> exact ⟨rfl, rfl, rfl, rfl, rfl⟩

/-- C10: `guestName` has no effect: two `add_booking` requests agreeing on
every field except possibly `guestName`, run against the same database state
and fault outcome, produce identical database states and identical
responses. -/
theorem add_booking_guestName_no_effect (req req' : BookingRequest)
    (hroom : req'.roomNumber = req.roomNumber)
    (hin : req'.checkInDate = req.checkInDate)
    (hout : req'.checkOutDate = req.checkOutDate)
    (hcost : req'.totalCost = req.totalCost)
    (hcust : req'.customerId = req.customerId)
    (fault : AddFault) (db : DB) :
    add_booking req' fault db = add_booking req fault db := by
  cases fault <;>
    simp [add_booking, insertBookingStmt, updateOccupiedStmt, commitStmtAdd,
      insertBooking, setRoomStatus, hroom, hin, hout, hcost, hcust]

theorem add_booking_guestName_no_effect_witness :
    add_booking { reqA with guestName := "Z. Xu" } AddFault.noFault dbA =
      add_booking reqA AddFault.noFault dbA :=
  add_booking_guestName_no_effect reqA { reqA with guestName := "Z. Xu" }
    rfl rfl rfl rfl rfl AddFault.noFault dbA

theorem setRoomStatus_mem_updated (db : DB) (n : Nat) (s : String) (r : RoomRow)
    (hr : r ∈ db.rooms) (hn : r.RoomNumber = n) :
    ({ r with Status := s } : RoomRow) ∈ (setRoomStatus db n s).rooms := by
  simp only [setRoomStatus, List.mem_map]
  exact ⟨r, hr, by simp [hn]⟩

theorem viewEntry_mem_availabilityView (db : DB) (r : RoomRow) (rt : RoomTypeRow)
    (hr : r ∈ db.rooms) (hrt : rt ∈ db.roomTypes)
    (hid : rt.RoomTypeID = r.RoomTypeID) :
    viewEntry r rt ∈ availabilityView db := by
  simp only [availabilityView, List.mem_mergeSort, roomJoin, List.mem_flatMap,
    List.mem_map, List.mem_filter]
  exact ⟨r, hr, rt, ⟨hrt, by simp [hid]⟩, rfl⟩

/-- C2: a successful `add_booking` returns the generated BookingID with
status 201, leaves a Booking row with the given fields and `BookingDate`
equal to the server clock in the database, and sets the room's `Status` to
`Occupied`, so the availability view then shows `Occupied` for that room. -/
theorem add_booking_success (req : BookingRequest) (db : DB) (r : RoomRow)
    (rt : RoomTypeRow) (hr : r ∈ db.rooms) (hn : r.RoomNumber = req.roomNumber)
    (hrt : rt ∈ db.roomTypes) (hid : rt.RoomTypeID = r.RoomTypeID) :
    (add_booking req AddFault.noFault db).2 =
      BookingResp.created db.nextBookingID ∧
    (add_booking req AddFault.noFault db).2.statusCode = 201 ∧
    ({ BookingID := db.nextBookingID, CustomerID := req.customerId,
       RoomNumber := req.roomNumber, CheckInDate := req.checkInDate,
       CheckOutDate := req.checkOutDate, TotalCost := req.totalCost,
       BookingDate := db.now } : BookingRow) ∈
      (add_booking req AddFault.noFault db).1.bookings ∧
    (∀ r' ∈ (add_booking req AddFault.noFault db).1.rooms,
        r'.RoomNumber = req.roomNumber → r'.Status = occupiedStr) ∧
    (∃ v ∈ availabilityView (add_booking req AddFault.noFault db).1,
        v.RoomNumber = req.roomNumber ∧ v.Status = occupiedStr) := by
  rw [add_booking_noFault_eq]
  refine ⟨rfl, rfl, ?_, setRoomStatus_status_of_eq _ _ _, ?_⟩
  · simp [setRoomStatus, insertBooking]
  · refine ⟨viewEntry { r with Status := occupiedStr } rt, ?_, hn, rfl⟩
    exact viewEntry_mem_availabilityView _ _ _
      (setRoomStatus_mem_updated (insertBooking db req) _ _ r hr hn) hrt hid

theorem add_booking_success_witness :
    (⟨102, 2, "Vacant"⟩ : RoomRow) ∈ dbA.rooms ∧
    (add_booking reqA AddFault.noFault dbA).2 =
      BookingResp.created dbA.nextBookingID ∧
    (add_booking reqA AddFault.noFault dbA).2.statusCode = 201 :=
  ⟨by decide,
   (add_booking_success reqA dbA ⟨102, 2, "Vacant"⟩ ⟨2, "Double", 250⟩
      (by decide) rfl (by decide) rfl).1,
   (add_booking_success reqA dbA ⟨102, 2, "Vacant"⟩ ⟨2, "Double", 250⟩
      (by decide) rfl (by decide) rfl).2.1⟩

/-- C6: `add_booking` performs no vacancy check: even when the requested
room's `Status` is already `Occupied`, the handler still inserts the Booking
row and succeeds with 201, so double-booking is not prevented. -/
theorem add_booking_double_booking (req : BookingRequest) (db : DB)
    (r : RoomRow) (hr : r ∈ db.rooms) (hn : r.RoomNumber = req.roomNumber)
    (hocc : r.Status = occupiedStr) :
    (add_booking req AddFault.noFault db).2 =
      BookingResp.created db.nextBookingID ∧
    (add_booking req AddFault.noFault db).2.statusCode = 201 ∧
    ({ BookingID := db.nextBookingID, CustomerID := req.customerId,
       RoomNumber := req.roomNumber, CheckInDate := req.checkInDate,
       CheckOutDate := req.checkOutDate, TotalCost := req.totalCost,
       BookingDate := db.now } : BookingRow) ∈
      (add_booking req AddFault.noFault db).1.bookings := by
  rw [add_booking_noFault_eq]
  exact ⟨rfl, rfl, by simp [setRoomStatus, insertBooking]⟩

theorem add_booking_double_booking_witness :
    (⟨101, 1, "Occupied"⟩ : RoomRow) ∈ dbA.rooms ∧
    (add_booking reqB AddFault.noFault dbA).2 =
      BookingResp.created dbA.nextBookingID :=
  ⟨by decide,
   (add_booking_double_booking reqB dbA ⟨101, 1, "Occupied"⟩
      (by decide) rfl rfl).1⟩

/-- C3: a successful `cancel_booking` on an existing Booking deletes that
Booking row, sets the room's `Status` to `Vacant` (so the availability view
then shows `Vacant` for that room's number), and answers 200 with the
success message naming the cancelled bookingId and the RoomNumber. -/
theorem cancel_booking_success (db : DB) (bid : Nat) (b : BookingRow)
    (hfind : db.bookings.find? (fun x => x.BookingID == bid) = some b) :
    (cancel_booking bid CancelFault.noFault db).2 =
      CancelResp.cancelled bid b.RoomNumber ∧
    (cancel_booking bid CancelFault.noFault db).2.statusCode = 200 ∧
    (cancel_booking bid CancelFault.noFault db).2.message? =
      some ("Booking " ++ toString bid ++ " cancelled successfully. Room " ++
        toString b.RoomNumber ++ " is now Vacant.") ∧
    (cancel_booking bid CancelFault.noFault db).1.bookings =
      db.bookings.filter (fun x => x.BookingID != bid) ∧
    (∀ r' ∈ (cancel_booking bid CancelFault.noFault db).1.rooms,
        r'.RoomNumber = b.RoomNumber → r'.Status = vacantStr) ∧
    (∀ v ∈ availabilityView (cancel_booking bid CancelFault.noFault db).1,
        v.RoomNumber = b.RoomNumber → v.Status = vacantStr) := by
  rw [cancel_booking_noFault_eq db bid b hfind]
  exact ⟨rfl, rfl, rfl, rfl, setRoomStatus_status_of_eq _ _ _,
    availabilityView_status_of_eq _ _ _ (setRoomStatus_status_of_eq _ _ _)⟩

theorem cancel_booking_success_witness :
    dbA.bookings.find? (fun x => x.BookingID == 1) =
      some { BookingID := 1, CustomerID := 7, RoomNumber := 101,
             CheckInDate := "2024-06-01", CheckOutDate := "2024-06-03",
             TotalCost := 250, BookingDate := 5 } ∧
    (cancel_booking 1 CancelFault.noFault dbA).2.message? =
      some "Booking 1 cancelled successfully. Room 101 is now Vacant." :=
  ⟨by decide,
   (cancel_booking_success dbA 1
      { BookingID := 1, CustomerID := 7, RoomNumber := 101,
        CheckInDate := "2024-06-01", CheckOutDate := "2024-06-03",
        TotalCost := 250, BookingDate := 5 } (by decide)).2.2.1⟩

/-- C4: `cancel_booking` on a bookingId that matches no Booking row answers
the distinct 404 not-found response and leaves the database state, in
particular every Room and Booking row, unchanged. -/
theorem cancel_booking_not_found (db : DB) (bid : Nat)
    (h : ∀ b ∈ db.bookings, b.BookingID ≠ bid) :
    cancel_booking bid CancelFault.noFault db = (db, CancelResp.notFound) ∧
    (cancel_booking bid CancelFault.noFault db).2.statusCode = 404 ∧
    (cancel_booking bid CancelFault.noFault db).1.rooms = db.rooms ∧
    (cancel_booking bid CancelFault.noFault db).1.bookings = db.bookings := by
  have hfind : db.bookings.find? (fun x => x.BookingID == bid) = none :=
    List.find?_eq_none.mpr (fun x hx => by simpa using h x hx)
  have heq : cancel_booking bid CancelFault.noFault db =
      (db, CancelResp.notFound) := by
    simp [cancel_booking, selectRoomStmt, selectRoomOfBooking, hfind]
  exact ⟨heq, by rw [heq]; rfl, by rw [heq], by rw [heq]⟩

theorem cancel_booking_not_found_witness :
    (∀ b ∈ dbA.bookings, b.BookingID ≠ 9) ∧
    cancel_booking 9 CancelFault.noFault dbA = (dbA, CancelResp.notFound) :=
  ⟨by decide, (cancel_booking_not_found dbA 9 (by decide)).1⟩

/-- C7: a successful `cancel_booking` sets the room's `Status` to `Vacant`
unconditionally: even when another live Booking row with a different
BookingID still references the same RoomNumber (and indeed survives the
deletion), the room still ends up `Vacant`. -/
theorem cancel_booking_unconditional_vacant (db : DB) (bid : Nat)
    (b other : BookingRow)
    (hfind : db.bookings.find? (fun x => x.BookingID == bid) = some b)
    (hother : other ∈ db.bookings) (hne : other.BookingID ≠ bid)
    (hsame : other.RoomNumber = b.RoomNumber) :
    (cancel_booking bid CancelFault.noFault db).2 =
      CancelResp.cancelled bid b.RoomNumber ∧
    other ∈ (cancel_booking bid CancelFault.noFault db).1.bookings ∧
    (∀ r' ∈ (cancel_booking bid CancelFault.noFault db).1.rooms,
        r'.RoomNumber = b.RoomNumber → r'.Status = vacantStr) := by
  rw [cancel_booking_noFault_eq db bid b hfind]
  refine ⟨rfl, ?_, setRoomStatus_status_of_eq _ _ _⟩
  exact List.mem_filter.mpr ⟨hother, by simpa using hne⟩

theorem cancel_booking_unconditional_vacant_witness :
    ({ BookingID := 2, CustomerID := 8, RoomNumber := 101,
       CheckInDate := "2024-06-02", CheckOutDate := "2024-06-04",
       TotalCost := 300, BookingDate := 6 } : BookingRow) ∈ dbB.bookings ∧
    (cancel_booking 1 CancelFault.noFault dbB).2 =
      CancelResp.cancelled 1 101 :=
  ⟨by decide,
   (cancel_booking_unconditional_vacant dbB 1
      { BookingID := 1, CustomerID := 7, RoomNumber := 101,
        CheckInDate := "2024-06-01", CheckOutDate := "2024-06-03",
        TotalCost := 250, BookingDate := 5 }
      { BookingID := 2, CustomerID := 8, RoomNumber := 101,
        CheckInDate := "2024-06-02", CheckOutDate := "2024-06-04",
        TotalCost := 300, BookingDate := 6 }
      (by decide) (by decide) (by decide) rfl).1⟩

theorem roomJoin_map_roomNumber (rooms : List RoomRow)
    (types : List RoomTypeRow)
    (hone : ∀ r ∈ rooms,
      (types.filter (fun rt => rt.RoomTypeID == r.RoomTypeID)).length = 1) :
    (rooms.flatMap (fun r =>
        (types.filter (fun rt => rt.RoomTypeID == r.RoomTypeID)).map
          (viewEntry r))).map RoomView.RoomNumber =
      rooms.map RoomRow.RoomNumber := by
  induction rooms with
  | nil => rfl
  | cons r rs ih =>
    obtain ⟨rt, hrt⟩ := List.length_eq_one.mp (hone r (List.mem_cons_self r rs))
    have ih' := ih (fun x hx => hone x (List.mem_cons_of_mem r hx))
    simp [hrt, ih', viewEntry]

theorem availabilityView_sorted (db : DB) :
    (availabilityView db).Pairwise (fun a b => a.RoomNumber ≤ b.RoomNumber) := by
  unfold availabilityView
  refine List.Pairwise.imp ?_ (List.sorted_mergeSort ?_ ?_ (roomJoin db))
  · intro a b h
    simpa using h
  · intro a b c hab hbc
    simp at *
    omega
  · intro a b
    simp
    omega

theorem availabilityView_filter_length (db : DB) (n : Nat)
    (hone : ∀ r ∈ db.rooms,
      (db.roomTypes.filter (fun rt => rt.RoomTypeID == r.RoomTypeID)).length = 1) :
    ((availabilityView db).filter (fun v => v.RoomNumber == n)).length =
      (db.rooms.map RoomRow.RoomNumber).count n := by
  have hperm : (availabilityView db).Perm (roomJoin db) := List.mergeSort_perm _ _
  have h1 : ((availabilityView db).filter (fun v => v.RoomNumber == n)).length =
      ((roomJoin db).filter (fun v => v.RoomNumber == n)).length :=
    (hperm.filter _).length_eq
  have h2 : List.countP (fun v : RoomView => v.RoomNumber == n) (roomJoin db) =
      List.countP (fun x => x == n) ((roomJoin db).map RoomView.RoomNumber) := by
    rw [List.countP_map]
    rfl
  rw [h1, ← List.countP_eq_length_filter, h2,
    show (roomJoin db).map RoomView.RoomNumber = db.rooms.map RoomRow.RoomNumber
      from roomJoin_map_roomNumber db.rooms db.roomTypes hone,
    List.count_eq_countP]

/-- C5: `get_room_availability` succeeds on every database state with the
joined, `RoomNumber`-ascending view: under the schema keys (distinct room
numbers, exactly one matching `RoomType` per room) it has exactly one entry
per Room row, each carrying that room's type name, rate and status, and with
zero rooms it is the empty sequence with success status 200, not an error. -/
theorem get_room_availability_spec (db : DB)
    (hnodup : (db.rooms.map RoomRow.RoomNumber).Nodup)
    (hone : ∀ r ∈ db.rooms,
      (db.roomTypes.filter (fun rt => rt.RoomTypeID == r.RoomTypeID)).length = 1) :
    get_room_availability RoomsFault.noFault db =
      (db, RoomsResp.ok (availabilityView db)) ∧
    (RoomsResp.ok (availabilityView db)).statusCode = 200 ∧
    (availabilityView db).Pairwise (fun a b => a.RoomNumber ≤ b.RoomNumber) ∧
    (availabilityView db).length = db.rooms.length ∧
    (∀ r ∈ db.rooms,
      ((availabilityView db).filter
        (fun v => v.RoomNumber == r.RoomNumber)).length = 1) ∧
    (∀ r ∈ db.rooms, ∀ rt ∈ db.roomTypes, rt.RoomTypeID = r.RoomTypeID →
      viewEntry r rt ∈ availabilityView db) ∧
    (db.rooms = [] → availabilityView db = []) := by
  refine ⟨rfl, rfl, availabilityView_sorted db, ?_, ?_, ?_, ?_⟩
  · have h := congrArg List.length
      (roomJoin_map_roomNumber db.rooms db.roomTypes hone)
    simpa [availabilityView, roomJoin] using h
  · intro r hr
    rw [availabilityView_filter_length db r.RoomNumber hone]
    exact List.count_eq_one_of_mem hnodup (List.mem_map.mpr ⟨r, hr, rfl⟩)
  · intro r hr rt hrt hid
    exact viewEntry_mem_availabilityView db r rt hr hrt hid
  · intro h
    simp [availabilityView, roomJoin, h]

theorem get_room_availability_spec_witness :
    (dbA.rooms.map RoomRow.RoomNumber).Nodup ∧
    (availabilityView dbA).length = dbA.rooms.length :=
  ⟨by decide,
   (get_room_availability_spec dbA (by decide) (by decide)).2.2.2.1⟩

/-- C8: the error taxonomy: a connectivity failure is the 500 response for
all three handlers and leaves the state unchanged; a statement or commit
failure inside `add_booking` or `cancel_booking` (given the cancelled
Booking exists, so the later statements are reached) rolls the transaction
back to the pre-call state and is the 400 response carrying the database
error details verbatim; every case answers in one attempt, with no retry. -/
theorem error_taxonomy (req : BookingRequest) (db : DB) (bid : Nat)
    (b : BookingRow) (d : String)
    (hfind : db.bookings.find? (fun x => x.BookingID == bid) = some b) :
    (add_booking req AddFault.connFail db = (db, BookingResp.connFail) ∧
      BookingResp.connFail.statusCode = 500) ∧
    (get_room_availability RoomsFault.connFail db =
        (db, RoomsResp.connFail) ∧
      RoomsResp.connFail.statusCode = 500) ∧
    (cancel_booking bid CancelFault.connFail db = (db, CancelResp.connFail) ∧
      CancelResp.connFail.statusCode = 500) ∧
    (∀ fault, fault = AddFault.insertFail d ∨ fault = AddFault.updateFail d ∨
        fault = AddFault.commitFail d →
      add_booking req fault db = (db, BookingResp.writeFail d)) ∧
    (BookingResp.writeFail d).statusCode = 400 ∧
    (BookingResp.writeFail d).details? = some d ∧
    (∀ fault, fault = CancelFault.selectFail d ∨
        fault = CancelFault.deleteFail d ∨
        fault = CancelFault.updateFail d ∨
        fault = CancelFault.commitFail d →
      cancel_booking bid fault db = (db, CancelResp.writeFail d)) ∧
    (CancelResp.writeFail d).statusCode = 400 ∧
    (CancelResp.writeFail d).details? = some d := by
  refine ⟨⟨rfl, rfl⟩, ⟨rfl, rfl⟩, ⟨rfl, rfl⟩, ?_, rfl, rfl, ?_, rfl, rfl⟩
  · rintro fault (rfl | rfl | rfl) <;> rfl
  · rintro fault (rfl | rfl | rfl | rfl) <;>
      simp [cancel_booking, selectRoomStmt, selectRoomOfBooking, hfind,
        deleteBookingStmt, updateVacantStmt, commitStmtCancel]

theorem error_taxonomy_witness :
    dbA.bookings.find? (fun x => x.BookingID == 1) =
      some { BookingID := 1, CustomerID := 7, RoomNumber := 101,
             CheckInDate := "2024-06-01", CheckOutDate := "2024-06-03",
             TotalCost := 250, BookingDate := 5 } ∧
    cancel_booking 1 (CancelFault.updateFail "err 2013") dbA =
      (dbA, CancelResp.writeFail "err 2013") := by
  refine ⟨by decide, ?_⟩
  exact (error_taxonomy reqA dbA 1
      { BookingID := 1, CustomerID := 7, RoomNumber := 101,
        CheckInDate := "2024-06-01", CheckOutDate := "2024-06-03",
        TotalCost := 250, BookingDate := 5 } "err 2013"
      (by decide)).2.2.2.2.2.2.1
    (CancelFault.updateFail "err 2013") (Or.inr (Or.inr (Or.inl rfl)))
